import Mathlib

/-!
Verification development for django-timegraph (metric caching, batched
write-through, round-robin series storage, and multi-series export).

The definitions below are a shallow embedding of `timegraph/models.py` and
`timegraph/views.py`.  Python scalar values are modelled by `PyVal`,
Python dictionaries by association lists, the memcached-style shared cache
by an association list from key to (raw string, timeout), and the rrdtool
archive files by an association list from file path to the list of samples
appended so far.  Machine floats are modelled by rationals: every float
literal appearing in the program ("0.0", parsed sample texts, un_value)
is an exact decimal, so rational arithmetic agrees with the float
arithmetic the program performs on them.
-/

namespace Timegraph

/-- A Python scalar value as it occurs in this code base (cache values,
parsed sample values, queue payloads). -/
inductive PyVal where
  | pynone
  | pybool (b : Bool)
  | pyint (z : ℤ)
  | pyfloat (q : ℚ)
  | pystr (s : String)
deriving DecidableEq, Repr

/-- Numeric view of a Python scalar: bools are ints in Python, ints and
floats compare numerically. -/
def numVal : PyVal → Option ℚ
  | .pybool b => some (if b then 1 else 0)
  | .pyint z => some (z : ℚ)
  | .pyfloat q => some q
  | _ => none

/-- Python `==` on the scalars above: numeric values compare by value,
`None` only equals `None`, strings compare by contents, and any
cross-kind comparison (for example `None == 0.0`) is `False`. -/
def pyEqVal (a b : PyVal) : Bool :=
  match numVal a, numVal b with
  | some x, some y => x = y
  | _, _ =>
    match a, b with
    | .pynone, .pynone => true
    | .pystr s, .pystr t => s = t
    | _, _ => false

/-- A Python object as compared by the smoothing code of `Metric.xport`:
either a scalar or a tuple (a row of the `rrdtool.xport` result). -/
inductive PyObj where
  | scal (v : PyVal)
  | tup (r : List PyVal)
deriving DecidableEq, Repr

/-- Python `==` between such objects: a tuple never equals a scalar
(tuple.__eq__ with a float returns NotImplemented, so `==` is False). -/
def pyEqObj : PyObj → PyObj → Bool
  | .scal a, .scal b => pyEqVal a b
  | .tup a, .tup b => a.length = b.length && (a.zip b).all (fun p => pyEqVal p.1 p.2)
  | _, _ => false

/-- Value of a list of decimal digit characters, `none` when empty or when a
non-digit occurs.  Used to model Python `int()` / `float()` parsing. -/
def digitsVal (cs : List Char) : Option ℕ :=
  match cs with
  | [] => none
  | _ =>
    cs.foldl (fun acc c =>
      match acc with
      | none => none
      | some n => if c.isDigit then some (n * 10 + (c.toNat - 48)) else none)
      (some 0)

/-- Python `int(text)`: an optional sign followed by decimal digits;
anything else (including a decimal point) raises ValueError, modelled as
`none`. -/
def parseIntStr (s : String) : Option ℤ :=
  match s.data with
  | [] => none
  | c :: rest =>
    if c = '-' then (digitsVal rest).map (fun n => -(n : ℤ))
    else if c = '+' then (digitsVal rest).map (fun n => (n : ℤ))
    else (digitsVal (c :: rest)).map (fun n => (n : ℤ))

/-- Unsigned part of Python `float(text)` restricted to the plain decimal
forms this program actually feeds it (`d+`, `d+.d*`, `.d+`); exponent,
infinity and nan spellings do not occur in the modelled data flow. -/
def parseUnsignedFloat (cs : List Char) : Option ℚ :=
  let ipart := cs.takeWhile (·.isDigit)
  let rest := cs.dropWhile (·.isDigit)
  if rest = [] then (digitsVal ipart).map (fun n => (n : ℚ))
  else if rest.head? = some '.' then
    let fpart := rest.tail
    if fpart.all (·.isDigit) && !(ipart.isEmpty && fpart.isEmpty) then
      some (((digitsVal ipart).getD 0 : ℕ) +
        (((digitsVal fpart).getD 0 : ℕ) : ℚ) / ((10 : ℚ) ^ fpart.length))
    else none
  else none

/-- Python `float(text)` on the decimal forms above, with an optional sign. -/
def parseFloatStr (s : String) : Option ℚ :=
  match s.data with
  | [] => none
  | c :: rest =>
    if c = '-' then (parseUnsignedFloat rest).map (fun q => -q)
    else if c = '+' then parseUnsignedFloat rest
    else parseUnsignedFloat (c :: rest)

/-- Decimal digits of the fractional part `r / den`, most significant
first, stopping at an exact remainder of zero or after `fuel` digits
(Python float repr emits at most 17 significant digits; every value
handled by the claims terminates well before the fuel runs out). -/
def fracDigits : ℕ → ℕ → ℕ → List ℕ
  | 0, _, _ => []
  | _ + 1, 0, _ => []
  | fuel + 1, r, den => (r * 10 / den) :: fracDigits fuel (r * 10 % den) den

/-- Python `str()` of a float: sign, integer part, a dot, then the
fractional digits (at least one, so `str(2.0) = "2.0"`). -/
def floatStr (q : ℚ) : String :=
  let sgn := if q < 0 then "-" else ""
  let na := q.num.natAbs
  let ip := na / q.den
  let r := na % q.den
  let fds := fracDigits 17 r q.den
  let frac := if fds.isEmpty then "0" else String.join (fds.map (fun d => toString d))
  sgn ++ toString ip ++ "." ++ frac

/-- Python `str()` of a scalar, the raw representation stored by the
shared cache in raw mode. -/
def pyStr : PyVal → String
  | .pynone => "None"
  | .pybool b => if b then "True" else "False"
  | .pyint z => toString z
  | .pyfloat q => floatStr q
  | .pystr s => s

/-- `str(obj.pk).replace(':', '')` — strips every ':' from an entity key
(used both for archive paths and for cache keys). -/
def strip_sep (s : String) : String :=
  ⟨s.data.filter (fun c => c ≠ ':')⟩

/-- An entity a metric is recorded against: `obj_class` models
`objtype(obj)` (the lower-cased class name) and `pk` models `str(obj.pk)`. -/
structure Entity where
  obj_class : String
  pk : String
deriving DecidableEq, Repr

/-- The fields of the `Metric` model (and of the settings it reads in
`__init__`) that the embedded operations consume.  `cache_ns` models the
`cache_prefix` setting (TIMEGRAPH_CACHE_PREFIX). -/
structure Metric where
  pk : ℕ
  type : String
  parameter : String
  rrd_enabled : Bool
  heartbeat : ℕ
  cache_timeout : ℕ
  rrd_root : String
  cache_ns : String
  queue_size : ℕ
deriving DecidableEq, Repr

/-- `Metric._rrd_path`: `os.path.join(rrd_root, objtype(obj),
str(obj.pk).replace(':',''), '%s.rrd' % self.pk)`. -/
def Metric.rrd_path (m : Metric) (obj : Entity) : String :=
  m.rrd_root ++ "/" ++ obj.obj_class ++ "/" ++ strip_sep obj.pk ++ "/" ++
    toString m.pk ++ ".rrd"

/-- `Metric._pre_key_for` composed with the `%`-substitution of the
stripped primary key performed at both call sites (lines 199 and 238):
`"{cache_prefix}/{obj_type}/%s/{metric_pk}" % stripped_pk`. -/
def Metric.cache_key (m : Metric) (obj_class : String) (pk : String) : String :=
  m.cache_ns ++ "/" ++ obj_class ++ "/" ++ strip_sep pk ++ "/" ++ toString m.pk

/-- `Metric.to_python`: converts a raw cache string (or `None` for a raw
value that is absent / Python None) to a typed value.  The branches follow
the source: float and int parse and fall back to the kind's zero when
`force_metric_type` is set and to None otherwise; bool compares against
the texts "1" and "True", with a None raw value mapping to None when
`force_metric_type` is not set; every other type string takes the final
branch `value and unicode(value) or ''`. -/
def Metric.to_python (m : Metric) (value : Option String) (force : Bool) : PyVal :=
  if m.type = "float" then
    match value.bind parseFloatStr with
    | some q => .pyfloat q
    | none => if force then .pyfloat 0 else .pynone
  else if m.type = "int" then
    match value.bind parseIntStr with
    | some z => .pyint z
    | none => if force then .pyint 0 else .pynone
  else if m.type = "bool" then
    if value = some "1" ∨ value = some "True" then .pybool true
    else if force = false ∧ value = none then .pynone
    else .pybool false
  else
    .pystr (value.getD "")

/-- A concrete metric of the given kind, with the default settings values
from `Metric.__init__`. -/
def mkMetric (t : String) : Metric :=
  { pk := 7, type := t, parameter := "param", rrd_enabled := true,
    heartbeat := 300, cache_timeout := 0,
    rrd_root := "/var/lib/rrdcached/db", cache_ns := "timegraph",
    queue_size := 3000 }

/-- Dictionary lookup. -/
def dict_get {β : Type} : List (String × β) → String → Option β
  | [], _ => none
  | (k', v) :: rest, k => if k' = k then some v else dict_get rest k

/-- Dictionary assignment `d[k] = v`: replaces the value of an existing
key in place, otherwise appends the new binding. -/
def dict_set {β : Type} : List (String × β) → String → β → List (String × β)
  | [], k, v => [(k, v)]
  | (k', v') :: rest, k, v =>
    if k' = k then (k, v) :: rest else (k', v') :: dict_set rest k v

/-- Dictionary deletion with `del d[k]` semantics, the KeyError swallowed
as in `Metric.get_polling` (`try: del ... except KeyError: pass`); a
Python dict holds at most one binding per key, so dropping every binding
of `k` is the deletion of that one binding. -/
def dict_del {β : Type} (d : List (String × β)) (k : String) : List (String × β) :=
  d.filter (fun kv => kv.1 ≠ k)

/-- `k in d`. -/
def dict_mem {β : Type} (d : List (String × β)) (k : String) : Bool :=
  (dict_get d k).isSome

/-- Shared cache contents: key to (raw value, timeout seconds). -/
abbrev SharedCache := List (String × (String × ℕ))

/-- `cache.set_many(cache_dict, timeout=t, raw=True)`: stores `str(value)`
for every binding of the dict. -/
def cache_set_many (c : SharedCache) (entries : List (String × PyVal)) (t : ℕ) :
    SharedCache :=
  entries.foldl (fun c kv => dict_set c kv.1 (pyStr kv.2, t)) c

/-- The timeout used by `set_polling_many`:
`self.cache_timeout if self.cache_timeout else 7 * 86400`. -/
def Metric.timeout_of (m : Metric) : ℕ :=
  if m.cache_timeout ≠ 0 then m.cache_timeout else 7 * 86400

/-- Error raised by an archive update: the message either contains
"No such file" (the archive does not exist yet) or reports any other
storage fault. -/
inductive RrdErr where
  | no_such_file
  | failed (msg : String)
deriving DecidableEq, Repr

/-- Archive store: rrd file path to appended samples. -/
abbrev RrdStore := List (String × List PyVal)

/-- `rrdtool.update(filepath, "N:{value}")`: appends one sample stamped
"now"; raises "No such file" when the archive is absent, and some other
error on a faulty path. -/
def rrd_update (faulty : String → Bool) (store : RrdStore) (path : String)
    (v : PyVal) : Except RrdErr RrdStore :=
  match dict_get store path with
  | none => .error .no_such_file
  | some samples =>
    if faulty path then .error (.failed "rrd update failed")
    else .ok (dict_set store path (samples ++ [v]))

/-- `rrdtool.create(filepath, 'DS:...GAUGE:heartbeat...', 'RRA:...' x4)`:
provisions an empty archive at the path.  The ring layout (600 slots at
decimation 1, 6, 24, 288, average-consolidated) is internal to the
rrdtool file format and not observable through the operations modelled
here, so the archive is represented by its sample list alone. -/
def rrd_create (store : RrdStore) (path : String) : RrdStore :=
  dict_set store path []

/-- Mutable state touched by the archive branch of `set_polling_many`:
the archive files, the directories that exist (`os.makedirs`), and the
messages logged via `LOGGER.error`. -/
structure WriteState where
  rrd : RrdStore
  dirs : List String
  logs : List String
deriving DecidableEq, Repr

/-- `value not in (None, '')`. -/
def value_is_empty (v : PyVal) : Bool :=
  pyEqVal v .pynone || pyEqVal v (.pystr "")

/-- The `LOGGER.error("error on %s metric (object %s): %s", ...)` text. -/
def rrd_log_msg (m : Metric) (obj_pk : String) (msg : String) : String :=
  "error on " ++ m.parameter ++ " metric (object " ++ obj_pk ++ "): " ++ msg

/-- One iteration of the `for obj, value in objs_and_values` loop of
`set_polling_many`, lines 240-264: nothing happens unless rrd is enabled
and the value is non-empty; a failed update whose error is not
"No such file" is logged and the entity is skipped; "No such file"
triggers `os.makedirs` (when the directory is missing) plus
`rrdtool.create` and a retry of the same update.  The retry runs outside
any `try`, so its failure propagates as an exception. -/
def sp_rrd_step (m : Metric) (faulty : String → Bool) (pre_path : String)
    (filename : String) (st : WriteState) (obj : Entity) (value : PyVal) :
    Except RrdErr WriteState :=
  if m.rrd_enabled && !(value_is_empty value) then
    let obj_pk := strip_sep obj.pk
    let filepath := pre_path ++ "/" ++ obj_pk ++ "/" ++ filename
    match rrd_update faulty st.rrd filepath value with
    | .ok rrd' => .ok { st with rrd := rrd' }
    | .error (.failed msg) =>
      .ok { st with logs := st.logs ++ [rrd_log_msg m obj_pk msg] }
    | .error .no_such_file =>
      let dirpath := pre_path ++ "/" ++ obj_pk
      let dirs' := if dirpath ∈ st.dirs then st.dirs else st.dirs ++ [dirpath]
      let rrd' := rrd_create st.rrd filepath
      match rrd_update faulty rrd' filepath value with
      | .ok rrd'' => .ok { rrd := rrd'', dirs := dirs', logs := st.logs }
      | .error e => .error e
  else .ok st

/-- The whole `for` loop of `set_polling_many`: accumulates the
`cache_dict` bindings (`cache_dict[key] = value` runs before the archive
attempt) and threads the archive state. -/
def sp_loop (m : Metric) (faulty : String → Bool) (pre_path : String)
    (filename : String) (key_class : String) :
    List (String × PyVal) × WriteState → List (Entity × PyVal) →
    Except RrdErr (List (String × PyVal) × WriteState)
  | acc, [] => .ok acc
  | (cd, st), (obj, value) :: rest =>
    let key := m.cache_key key_class obj.pk
    let cd' := dict_set cd key value
    match sp_rrd_step m faulty pre_path filename st obj value with
    | .ok st' => sp_loop m faulty pre_path filename key_class (cd', st') rest
    | .error e => .error e

/-- `Metric.set_polling_many`: an empty batch returns at once without
touching the cache; otherwise the rrd directory and the cache pre-key are
derived from the first object of the batch, the loop above runs, and the
accumulated dict is pushed to the shared cache with `set_many`.  The
result carries the final archive state, the cache after `set_many`, and
the dict that was passed to `set_many`. -/
def Metric.set_polling_many (m : Metric) (faulty : String → Bool)
    (st : WriteState) (c : SharedCache) (batch : List (Entity × PyVal)) :
    Except RrdErr (WriteState × SharedCache × List (String × PyVal)) :=
  match batch with
  | [] => .ok (st, c, [])
  | (first, _) :: _ =>
    let pre_path := m.rrd_root ++ "/" ++ first.obj_class
    let filename := toString m.pk ++ ".rrd"
    match sp_loop m faulty pre_path filename first.obj_class ([], st) batch with
    | .ok (cd, st') => .ok (st', cache_set_many c cd (m.timeout_of), cd)
    | .error e => .error e

/-- `Metric.set_polling`: the single write delegates to the batch write. -/
def Metric.set_polling (m : Metric) (faulty : String → Bool) (st : WriteState)
    (c : SharedCache) (obj : Entity) (value : PyVal) :
    Except RrdErr (WriteState × SharedCache × List (String × PyVal)) :=
  m.set_polling_many faulty st c [(obj, value)]

/-! ### Write queue -/

/-- The per-metric in-memory queue together with the record of the
batches it has handed to `set_polling_many` (each `dump_queue` call
appends the drained batch here). -/
structure WriteQueue where
  queue : List (Entity × PyVal)
  flushed : List (List (Entity × PyVal))
deriving DecidableEq, Repr

/-- `Metric.dump_queue`: flushes the queue to `set_polling_many` and
clears it. -/
def dump_queue (s : WriteQueue) : WriteQueue :=
  { queue := [], flushed := s.flushed ++ [s.queue] }

/-- `Metric.queue_append`: appends and flushes synchronously, before
returning, when `len(self.queue) > self.queue_size`. -/
def queue_append (qsize : ℕ) (s : WriteQueue) (item : Entity × PyVal) :
    WriteQueue :=
  let s' := { s with queue := s.queue ++ [item] }
  if qsize < s'.queue.length then dump_queue s' else s'

/-- A sequence of `queue_append` calls. -/
def enqueue_all (qsize : ℕ) (s : WriteQueue) (items : List (Entity × PyVal)) :
    WriteQueue :=
  items.foldl (queue_append qsize) s

/-- The process-local `self._cache`: pk to decoded value, a shared-cache
miss being recorded as a binding to None. -/
abbrev LocalCache := List (String × PyVal)

/-- The keys list built by `get_polling_many` lines 195-199: one
`(cache key, pk)` pair for every object whose pk is not yet in the local
cache. -/
def gp_keys (m : Metric) (lc : LocalCache) (key_class : String)
    (objs : List Entity) : List (String × String) :=
  objs.filterMap (fun o =>
    if dict_mem lc o.pk then none
    else some (m.cache_key key_class o.pk, o.pk))

/-- The fill loop of lines 205-210: for every pair, a shared-cache hit is
decoded with `to_python` and stored in the local cache, a miss is stored
as None. -/
def gp_fill (m : Metric) (shared : SharedCache) (force : Bool) :
    LocalCache → List (String × String) → LocalCache
  | lc, [] => lc
  | lc, kp :: rest =>
    match dict_get shared kp.1 with
    | some rv => gp_fill m shared force (dict_set lc kp.2 (m.to_python (some rv.1) force)) rest
    | none => gp_fill m shared force (dict_set lc kp.2 .pynone) rest

/-- `Metric.get_polling_many` (with `no_return=False`): returns the new
local cache, the values for the requested objects in order, and the list
of `cache.get_many` round trips issued (each recorded as the key list it
was called with).  An empty object list returns at once; a batch whose
keys list is empty issues no round trip. -/
def Metric.get_polling_many (m : Metric) (shared : SharedCache)
    (lc : LocalCache) (objs : List Entity) (force : Bool) :
    LocalCache × List PyVal × List (List String) :=
  match objs with
  | [] => (lc, [], [])
  | first :: _ =>
    let keys := gp_keys m lc first.obj_class objs
    let (lc', fetches) :=
      if keys.length > 0 then
        (gp_fill m shared force lc keys, [keys.map Prod.fst])
      else (lc, ([] : List (List String)))
    (lc', objs.map (fun o => (dict_get lc' o.pk).getD .pynone), fetches)

/-- `Metric.get_polling`: drops the object's local-cache entry (KeyError
ignored) and reads through `get_polling_many` on the one-object batch. -/
def Metric.get_polling (m : Metric) (shared : SharedCache) (lc : LocalCache)
    (obj : Entity) (force : Bool) : LocalCache × PyVal × List (List String) :=
  let lc0 := dict_del lc obj.pk
  let r := m.get_polling_many shared lc0 [obj] force
  (r.1, (r.2.1.headD .pynone), r.2.2)

/-! ### The RPN expression built for export

`Metric.xport` and `_rrd_export_wrap` build, for each input series, the
rrdtool RPN fragment `var,UN,0.0,var,IF,0.0,EQ,un_value,var,IF` and then
join the per-series results with `n-1` copies of the combination
operator.  The machine below evaluates such token lists over a time-grid
position, where a sample is `none` at a gap. -/

/-- A sample at one position of the shared time grid (`none` = unknown). -/
abbrev Sample := Option ℚ

/-- The RPN tokens occurring in the generated CDEF expressions.  `bin f`
stands for the caller-chosen combination operator (`+`, `MAX`, ...). -/
inductive RpnTok where
  | rvar (i : ℕ)
  | lit (q : ℚ)
  | un
  | rif
  | req
  | bin (f : ℚ → ℚ → ℚ)

/-- One step of rrdtool RPN evaluation on a stack of samples.  `UN` pushes
1 for an unknown top, 0 otherwise; `a,b,c,IF` yields `b` when `a` is
non-zero (an unknown condition selects the else branch); `EQ` compares two
known values; the binary operator combines two known values and is
unknown when an operand is unknown.  A stack underflow fails. -/
def rpnStep (env : ℕ → Sample) (st : List Sample) : RpnTok → Option (List Sample)
  | .rvar i => some (env i :: st)
  | .lit q => some (some q :: st)
  | .un =>
    match st with
    | x :: rest => some (some (if x = none then (1 : ℚ) else 0) :: rest)
    | [] => none
  | .rif =>
    match st with
    | c :: b :: a :: rest =>
      some ((match a with
             | some q => if q = 0 then c else b
             | none => c) :: rest)
    | _ => none
  | .req =>
    match st with
    | x :: y :: rest =>
      some ((match x, y with
             | some a, some b => some (if b = a then (1 : ℚ) else 0)
             | _, _ => none) :: rest)
    | _ => none
  | .bin f =>
    match st with
    | x :: y :: rest =>
      some ((match x, y with
             | some a, some b => some (f b a)
             | _, _ => none) :: rest)
    | _ => none

/-- Runs a token list on a stack. -/
def rpnRun (env : ℕ → Sample) : List RpnTok → List Sample → Option (List Sample)
  | [], st => some st
  | t :: ts, st =>
    match rpnStep env st t with
    | some st' => rpnRun env ts st'
    | none => none

/-- Full evaluation: the expression must leave exactly one value. -/
def rpnEval (env : ℕ → Sample) (toks : List RpnTok) : Option Sample :=
  match rpnRun env toks [] with
  | some [v] => some v
  | _ => none

/-- The per-series fragment of the CDEF, lines 376-378 of models.py and
187-189 of views.py: `var,UN,0.0,var,IF,0.0,EQ,un_value,var,IF` with
`un_value` already parsed to its numeric value. -/
def substToks (unValue : ℚ) (i : ℕ) : List RpnTok :=
  [.rvar i, .un, .lit 0, .rvar i, .rif, .lit 0, .req, .lit unValue, .rvar i, .rif]

/-- The whole CDEF for `n` input series: every per-series fragment
followed by `n - 1` copies of the combination operator (line 381 /
line 192). -/
def cdefToks (unValue : ℚ) (f : ℚ → ℚ → ℚ) (n : ℕ) : List RpnTok :=
  ((List.range n).map (substToks unValue)).flatten ++
    List.replicate (n - 1) (.bin f)

/-- The value the substitution fragment denotes: a gap becomes 0.0 first,
and a result equal to 0.0 (a gap, or a recorded 0.0 sample) is then
replaced by `un_value`; any other recorded sample is kept. -/
def gapSubst (unValue : ℚ) (s : Sample) : ℚ :=
  if s.getD 0 = 0 then unValue else s.getD 0

/-- Combination of the per-series values with the operator, as the RPN
stack applies it: `v0 ⊕ (v1 ⊕ (... ⊕ vk))`. -/
def combineAll (f : ℚ → ℚ → ℚ) : List ℚ → Option ℚ
  | [] => none
  | [v] => some v
  | v :: rest => (combineAll f rest).map (fun w => f v w)

/-- Resolution of a Python list index (negative indices count from the
end); out of range raises IndexError, modelled as `none`. -/
def py_index (n : ℕ) (i : ℤ) : Option ℕ :=
  if 0 ≤ i then (if i < (n : ℤ) then some i.toNat else none)
  else (if (-i) ≤ (n : ℤ) then some (n - (-i).toNat) else none)

/-- Python `l[i]`. -/
def py_get {α : Type} (l : List α) (i : ℤ) : Option α :=
  (py_index l.length i).bind (fun j => l.get? j)

/-- Python `l[i] = v`. -/
def py_set {α : Type} (l : List α) (i : ℤ) (v : α) : Option (List α) :=
  (py_index l.length i).map (fun j => l.set j v)

/-- The per-key smoothing of `_rrd_export_wrap`:
`if output[key][-1] == 0.0: output[key][-1] = output[key][-2]` followed by
`if output[key][0] == 0.0: output[key][0] = output[key][1]`, the second
test reading the list already updated by the first.  An out-of-range
index propagates as an IndexError (`none`). -/
def smooth_key (l : List PyVal) : Option (List PyVal) := do
  let last ← py_get l (-1)
  let l ←
    if pyEqVal last (.pyfloat 0) then do
      let v ← py_get l (-2)
      py_set l (-1) v
    else pure l
  let first ← py_get l 0
  if pyEqVal first (.pyfloat 0) then do
    let v ← py_get l 1
    py_set l 0 v
  else pure l

/-- Lookup in the dict returned by `rrdtool.xport`: its entries are
`meta` and `data`; any other key (such as a metric parameter) raises
KeyError.  Only the `data` rows are relevant to the smoothing code. -/
def xport_dict_get (rows : List PyObj) (key : String) : Option (List PyObj) :=
  if key = "data" then some rows else none

/-- The smoothing tail of `Metric.xport`, lines 394-398, acting on the
dict returned by `rrdtool.xport`: the code compares `output['data'][-1]`
(a row tuple) with the float `0.0` and, when equal, assigns
`output[key][-2]` into it (a KeyError for a metric parameter key, since
the dict only holds `meta` and `data`), and likewise for the first row.
`.error` models an uncaught Python exception. -/
def xport_smooth (key : String) (rows : List PyObj) : Except String (List PyObj) := do
  let last ←
    match py_get rows (-1) with
    | some r => Except.ok r
    | none => Except.error "IndexError"
  let rows ←
    if pyEqObj last (.scal (.pyfloat 0)) then
      match xport_dict_get rows key with
      | none => Except.error "KeyError"
      | some l =>
        match py_get l (-2) with
        | none => Except.error "IndexError"
        | some v =>
          match py_set rows (-1) v with
          | none => Except.error "IndexError"
          | some rows' => Except.ok rows'
    else Except.ok rows
  let first ←
    match py_get rows 0 with
    | some r => Except.ok r
    | none => Except.error "IndexError"
  if pyEqObj first (.scal (.pyfloat 0)) then
    match xport_dict_get rows key with
    | none => Except.error "KeyError"
    | some l =>
      match py_get l 1 with
      | none => Except.error "IndexError"
      | some v =>
        match py_set rows 0 v with
        | none => Except.error "IndexError"
        | some rows' => Except.ok rows'
  else Except.ok rows

/-! ### Multi-metric export (`_rrd_export_wrap`) -/

/-- The per-label first phase of `_rrd_export_wrap`, lines 167-195: for
each `(key, metric)` the input series are the objects whose archive
exists; a label with no input series returns None for the whole call.
On success it yields the label list (`keys`), in iteration order. -/
def wrap_collect (objs : List Entity) (archExists : String → Bool) :
    List (String × Metric) → Option (List String)
  | [] => some []
  | (key, m) :: rest =>
    let xvars := (objs.filter (fun o => archExists (m.rrd_path o))).map
      (fun o => key ++ strip_sep o.pk)
    if xvars.isEmpty then none
    else (wrap_collect objs archExists rest).map (fun ks => key :: ks)

/-- One value text of an xport XML row: 'NaN'/'nan' become None, anything
else goes through Python `float()` (whose failure would raise). -/
def parse_val (s : String) : Except String PyVal :=
  if s = "NaN" ∨ s = "nan" then .ok .pynone
  else
    match parseFloatStr s with
    | some q => .ok (.pyfloat q)
    | none => .error "ValueError"

/-- The values of one row, one per label in order; a row shorter than the
label list raises IndexError (`values[counter]`). -/
def row_values (nkeys : ℕ) (vals : List String) : Except String (List PyVal) :=
  (List.range nkeys).mapM (fun i =>
    match vals.get? i with
    | none => Except.error "IndexError"
    | some s => parse_val s)

/-- `_rrd_export_wrap` end to end.  `runXport` abstracts the
`rrdtool xport` subprocess plus the XML parse: it returns the data rows,
each a timestamp with the value texts of that row.  The result is
`Except.ok none` for the early `return None`, `Except.ok (some output)`
on success (timestamp column and per-label value lists, smoothed), and
`.error` for an uncaught Python exception. -/
def rrd_export_wrap (exports : List (String × Metric)) (objs : List Entity)
    (archExists : String → Bool)
    (runXport : List (ℤ × List String)) :
    Except String (Option (List ℤ × List (String × List PyVal))) := do
  match wrap_collect objs archExists exports with
  | none => return none
  | some keys => do
    let parsedRows ← runXport.mapM (fun row => row_values keys.length row.2)
    let stamps := runXport.map Prod.fst
    let columns ← (List.range keys.length).mapM (fun i => do
      let col := parsedRows.map (fun pr => (pr.get? i).getD .pynone)
      match smooth_key col with
      | some col' => Except.ok col'
      | none => Except.error "IndexError")
    return some (stamps, keys.zip columns)

/-- The combined data rows of a single-metric export whose first and last
points are 0.0: each row of the `rrdtool.xport` result is a one-column
tuple. -/
def xport_rows_c2 : List PyObj :=
  [.tup [.pyfloat 0], .tup [.pyfloat 5], .tup [.pyfloat 5], .tup [.pyfloat 0]]

/-- The rrd file path `set_polling_many` builds for an entity of the
batch: the directory part comes from the first object's type (`cls`), the
pk from the entity itself. -/
def sp_filepath (m : Metric) (cls : String) (obj : Entity) : String :=
  m.rrd_root ++ "/" ++ cls ++ "/" ++ strip_sep obj.pk ++ "/" ++ (toString m.pk ++ ".rrd")

/-- The directory of that path (`os.path.dirname(filepath)`). -/
def sp_dirpath (m : Metric) (cls : String) (obj : Entity) : String :=
  m.rrd_root ++ "/" ++ cls ++ "/" ++ strip_sep obj.pk

example : (mkMetric "bool").to_python (some "True") false = .pybool true := by decide

example : (mkMetric "bool").to_python none false = .pynone := by decide

example : (mkMetric "float").to_python (some "3.5") true = .pyfloat (7 / 2) := by
  simp +decide [Metric.to_python, mkMetric, parseFloatStr, parseUnsignedFloat, digitsVal]
  norm_num

example : (mkMetric "float").to_python (some "abc") false = .pynone := by
  simp +decide [Metric.to_python, mkMetric, parseFloatStr, parseUnsignedFloat, digitsVal]

example : (mkMetric "int").to_python (some "-12") true = .pyint (-12) := by
  simp +decide [Metric.to_python, mkMetric, parseIntStr, digitsVal]

example : parseFloatStr (floatStr (7 / 2)) = some (7 / 2) := by
  have hn : ((7 : ℚ) / 2).num = 7 := by norm_num
  have hd : ((7 : ℚ) / 2).den = 2 := by norm_num
  have hlt : ¬((7 : ℚ) / 2 < 0) := by norm_num
  have hs : floatStr (7 / 2) = "3.5" := by simp +decide [floatStr, hn, hd, hlt]
  rw [hs]
  simp +decide [parseFloatStr, parseUnsignedFloat, digitsVal]
  norm_num

example : pyStr (.pyint 7) = "7" := by decide

example : strip_sep "a:b" = "ab" := by decide

/-! ### Python dictionaries as association lists -/

theorem dict_get_set_self {β : Type} (d : List (String × β)) (k : String) (v : β) :
    dict_get (dict_set d k v) k = some v := by
  induction d with
  | nil => simp [dict_get, dict_set]
  | cons kv rest ih =>
    by_cases h : kv.1 = k
    · simp [dict_set, dict_get, h]
    · simp [dict_set, dict_get, h, ih]

theorem dict_get_set_ne {β : Type} (d : List (String × β)) (k k' : String) (v : β)
    (h : k ≠ k') : dict_get (dict_set d k v) k' = dict_get d k' := by
  induction d with
  | nil => simp [dict_get, dict_set, h]
  | cons kv rest ih =>
    by_cases hk : kv.1 = k
    · subst hk; simp [dict_set, dict_get, h]
    · simp [dict_set, dict_get, hk, ih]

theorem dict_mem_set {β : Type} (d : List (String × β)) (k k' : String) (v : β) :
    dict_mem (dict_set d k v) k' = (k = k' || dict_mem d k') := by
  by_cases h : k = k'
  · subst h; simp [dict_mem, dict_get_set_self]
  · simp [dict_mem, dict_get_set_ne d k k' v h, h]

theorem dict_get_del_self {β : Type} (d : List (String × β)) (k : String) :
    dict_get (dict_del d k) k = none := by
  induction d with
  | nil => simp [dict_get, dict_del]
  | cons kv rest ih =>
    by_cases h : kv.1 = k <;>
      simp_all [dict_del, dict_get, List.filter]

theorem dict_mem_del_self {β : Type} (d : List (String × β)) (k : String) :
    dict_mem (dict_del d k) k = false := by
  simp [dict_mem, dict_get_del_self]

/-! ### Shared cache and rrdtool archive store

The shared cache (django `cache` with `raw=True`) maps a key to the raw
string representation of the stored value together with the expiry passed
to `set_many`.  The archive store maps an rrd file path to the list of
samples appended so far; `faulty` injects the storage faults of the
deployment (an update on such a path raises an rrdtool error whose message
is not "No such file"). -/

theorem enqueue_all_no_flush (qsize : ℕ) (s : WriteQueue)
    (items : List (Entity × PyVal)) (h : s.queue.length + items.length ≤ qsize) :
    enqueue_all qsize s items = { s with queue := s.queue ++ items } := by
  induction items generalizing s with
  | nil => simp [enqueue_all]
  | cons it rest ih =>
    simp only [List.length_cons] at h
    have hstep : queue_append qsize s it = { s with queue := s.queue ++ [it] } := by
      unfold queue_append dump_queue
      rw [if_neg]
      simp only [List.length_append, List.length_singleton]
      omega
    simp only [enqueue_all, List.foldl_cons]
    rw [show (List.foldl (queue_append qsize) (queue_append qsize s it) rest) =
      enqueue_all qsize (queue_append qsize s it) rest from rfl, hstep,
      ih { s with queue := s.queue ++ [it] } (by simp; omega)]
    simp

/-! ### Cache read path -/

theorem rpnRun_append (env : ℕ → Sample) (l1 l2 : List RpnTok)
    (st : List Sample) :
    rpnRun env (l1 ++ l2) st =
      (rpnRun env l1 st).bind (fun st' => rpnRun env l2 st') := by
  induction l1 generalizing st with
  | nil => simp [rpnRun]
  | cons t ts ih =>
    simp only [List.cons_append, rpnRun]
    cases rpnStep env st t with
    | none => rfl
    | some st' => exact ih st'

theorem rpnRun_subst (env : ℕ → Sample) (unValue : ℚ) (i : ℕ)
    (st : List Sample) :
    rpnRun env (substToks unValue i) st =
      some (some (gapSubst unValue (env i)) :: st) := by
  cases h : env i with
  | none => simp [substToks, rpnRun, rpnStep, h, gapSubst]
  | some q =>
    by_cases hq : q = 0 <;>
      simp [substToks, rpnRun, rpnStep, h, gapSubst, hq]

theorem rpnRun_subst_blocks (env : ℕ → Sample) (u : ℚ) :
    ∀ (n : ℕ) (st : List Sample),
    rpnRun env (((List.range n).map (substToks u)).flatten) st =
      some (((List.range n).map (fun i => some (gapSubst u (env i)))).reverse ++ st) := by
  intro n
  induction n with
  | zero => intro st; simp [rpnRun]
  | succ n ih =>
    intro st
    rw [List.range_succ]
    simp only [List.map_append, List.flatten_append, List.map_cons, List.map_nil,
      List.flatten_cons, List.flatten_nil, List.append_nil]
    rw [rpnRun_append, ih st]
    simp only [Option.some_bind]
    rw [rpnRun_subst]
    simp

theorem rpnRun_bins (env : ℕ → Sample) (f : ℚ → ℚ → ℚ) :
    ∀ (vs : List ℚ) (top : ℚ) (rest : List Sample),
    rpnRun env (List.replicate vs.length (RpnTok.bin f))
        (some top :: vs.map some ++ rest) =
      some (some (vs.foldl (fun acc a => f a acc) top) :: rest) := by
  intro vs
  induction vs with
  | nil => intro top rest; simp [rpnRun]
  | cons a bs ih =>
    intro top rest
    simp only [List.length_cons, List.replicate_succ, List.map_cons, rpnRun,
      rpnStep, List.cons_append]
    exact ih (f a top) rest

theorem combineAll_cons_of_ne_nil (f : ℚ → ℚ → ℚ) (v : ℚ) (rest : List ℚ)
    (h : rest ≠ []) :
    combineAll f (v :: rest) = (combineAll f rest).map (fun w => f v w) := by
  cases rest with
  | nil => exact absurd rfl h
  | cons w ws => cases ws <;> simp [combineAll]

theorem combineAll_concat (f : ℚ → ℚ → ℚ) :
    ∀ (ws : List ℚ) (last : ℚ),
    combineAll f (ws ++ [last]) =
      some (ws.reverse.foldl (fun acc a => f a acc) last) := by
  intro ws
  induction ws with
  | nil => intro last; simp [combineAll]
  | cons w ws' ih =>
    intro last
    rw [List.cons_append,
      combineAll_cons_of_ne_nil f w (ws' ++ [last]) (by simp), ih]
    simp [List.foldl_append]

theorem rpnEval_cdef (env : ℕ → Sample) (u : ℚ) (f : ℚ → ℚ → ℚ) (n : ℕ) :
    rpnEval env (cdefToks u f (n + 1)) =
      some (combineAll f ((List.range (n + 1)).map (fun i => gapSubst u (env i)))) := by
  unfold rpnEval cdefToks
  rw [rpnRun_append, rpnRun_subst_blocks]
  simp only [Option.some_bind, List.append_nil]
  have hm : ((List.range (n + 1)).map (fun i => some (gapSubst u (env i)))).reverse =
      some (gapSubst u (env n)) ::
        (((List.range n).map (fun i => gapSubst u (env i))).reverse).map some := by
    rw [List.range_succ]
    simp [List.map_reverse]
  rw [hm]
  have hlen : n + 1 - 1 = (((List.range n).map (fun i => gapSubst u (env i))).reverse).length := by
    simp
  have hb := rpnRun_bins env f (((List.range n).map (fun i => gapSubst u (env i))).reverse)
    (gapSubst u (env n)) []
  simp only [List.append_nil] at hb
  rw [hlen, hb]
  rw [show (List.range (n + 1)).map (fun i => gapSubst u (env i)) =
    ((List.range n).map (fun i => gapSubst u (env i))) ++ [gapSubst u (env n)] by
      rw [List.range_succ]; simp]
  rw [combineAll_concat]

theorem enqueue_all_boundary (qsize : ℕ) (items : List (Entity × PyVal))
    (h : items.length = qsize + 1) :
    enqueue_all qsize ⟨[], []⟩ items = ⟨[], [items]⟩ := by
  rcases items.eq_nil_or_concat' with rfl | ⟨rest, last, rfl⟩
  · simp at h
  · simp only [List.length_append, List.length_singleton] at h
    have hrest : rest.length = qsize := by omega
    have hpre : enqueue_all qsize ⟨[], []⟩ rest =
        { queue := ([] : List (Entity × PyVal)) ++ rest, flushed := [] } := by
      exact enqueue_all_no_flush qsize ⟨[], []⟩ rest (by simp [hrest])
    unfold enqueue_all
    rw [List.foldl_append]
    rw [show List.foldl (queue_append qsize) ⟨[], []⟩ rest =
      enqueue_all qsize ⟨[], []⟩ rest from rfl, hpre]
    simp only [List.nil_append, List.foldl_cons, List.foldl_nil]
    unfold queue_append dump_queue
    rw [if_pos]
    · simp
    · simp [hrest]

/-! ### Boundary smoothing

`_rrd_export_wrap` (views.py lines 224-229) smooths the per-key float
lists in place; `Metric.xport` (models.py lines 394-398) runs the
corresponding code on the dict returned by `rrdtool.xport`, whose rows
are tuples. -/

theorem wrap_collect_none (objs : List Entity) (archExists : String → Bool) :
    ∀ (exports : List (String × Metric)),
    (∃ km ∈ exports, ∀ o ∈ objs, archExists ((km.2).rrd_path o) = false) →
    wrap_collect objs archExists exports = none := by
  intro exports
  induction exports with
  | nil => rintro ⟨km, hmem, _⟩; cases hmem
  | cons kv rest ih =>
    rintro ⟨km, hmem, hnone⟩
    rcases kv with ⟨key, m⟩
    simp only [wrap_collect]
    rcases List.mem_cons.mp hmem with rfl | hmem'
    · have hf : objs.filter (fun o => archExists (m.rrd_path o)) = [] := by
        rw [List.filter_eq_nil_iff]
        intro o ho
        simp [hnone o ho]
      rw [hf]
      simp
    · by_cases hx : ((objs.filter (fun o => archExists (m.rrd_path o))).map
        (fun o => key ++ strip_sep o.pk)).isEmpty
      · simp [hx]
      · simp only [hx, Bool.false_eq_true, if_false]
        rw [ih ⟨km, hmem', hnone⟩]
        rfl

/-- C1: in export, every unknown (gap) sample of an input series is
replaced, element-wise before the series are combined with the operator,
by the numeric value of `un_value`: the generated RPN fragment evaluates
each input to `gapSubst`, which sends a gap to `un_value` (0.0 for
un_value "0", 999.0 for un_value "999"), substitutes a recorded sample
equal to exactly 0.0 the same way, and keeps every non-zero recorded
sample; the full CDEF combines exactly these substituted values with the
operator. -/
theorem C1_gap_substitution :
    (∀ (env : ℕ → Sample) (u : ℚ) (i : ℕ),
      rpnEval env (substToks u i) = some (some (gapSubst u (env i))))
    ∧ gapSubst 0 none = 0
    ∧ gapSubst 999 none = 999
    ∧ gapSubst 999 (some 0) = 999
    ∧ (∀ u q : ℚ, q ≠ 0 → gapSubst u (some q) = q)
    ∧ (∀ (env : ℕ → Sample) (u : ℚ) (f : ℚ → ℚ → ℚ) (n : ℕ),
      rpnEval env (cdefToks u f (n + 1)) =
        some (combineAll f ((List.range (n + 1)).map (fun i => gapSubst u (env i))))) := by
  refine ⟨?_, by norm_num [gapSubst], by norm_num [gapSubst], by norm_num [gapSubst],
    ?_, rpnEval_cdef⟩
  · intro env u i
    unfold rpnEval
    rw [rpnRun_subst]
  · intro u q hq
    simp [gapSubst, hq]

/-- Witness for C1 at concrete inputs: a non-zero recorded sample is kept,
and a gap becomes the parsed un_value 999. -/
theorem C1_gap_substitution_witness :
    gapSubst 0 (some 5) = 5
    ∧ rpnEval (fun _ => none) (substToks 999 0) = some (some 999) := by
  constructor
  · exact C1_gap_substitution.2.2.2.2.1 0 5 (by norm_num)
  · rw [C1_gap_substitution.1 (fun _ => none) 999 0]
    norm_num [gapSubst]

/-- C3: in the multi-metric export, a requested (label, metric) pair with
zero existing archives across the entity list makes the whole call return
None, never a map with only the other labels. -/
theorem C3_all_or_nothing (exports : List (String × Metric)) (objs : List Entity)
    (archExists : String → Bool) (runXport : List (ℤ × List String))
    (h : ∃ km ∈ exports, ∀ o ∈ objs, archExists ((km.2).rrd_path o) = false) :
    rrd_export_wrap exports objs archExists runXport = .ok none := by
  unfold rrd_export_wrap
  rw [wrap_collect_none objs archExists exports h]
  rfl

/-- Witness for C3: metric "a" has an archive for the entity, metric "b"
has none, and the whole call returns None. -/
theorem C3_all_or_nothing_witness :
    rrd_export_wrap [("a", mkMetric "float"), ("b", { mkMetric "float" with pk := 8 })]
      [⟨"line", "1"⟩]
      (fun p => p = (mkMetric "float").rrd_path ⟨"line", "1"⟩) [] = .ok none := by
  apply C3_all_or_nothing
  refine ⟨("b", { mkMetric "float" with pk := 8 }), by simp, ?_⟩
  intro o ho
  simp only [List.mem_singleton] at ho
  subst ho
  decide

/-- C10: the archive path and the shared-cache key are deterministic in
(entity type, entity key, metric identity) and factor through the
':'-stripped entity key, so two distinct keys differing only by ':'
characters collide on both. -/
theorem C10_path_collision :
    ("a:b" : String) ≠ "ab"
    ∧ (∀ (m : Metric) (cls : String) (k1 k2 : String),
        strip_sep k1 = strip_sep k2 →
        m.rrd_path ⟨cls, k1⟩ = m.rrd_path ⟨cls, k2⟩
        ∧ m.cache_key cls k1 = m.cache_key cls k2)
    ∧ (∀ (m : Metric) (cls : String),
        m.rrd_path ⟨cls, "a:b"⟩ = m.rrd_path ⟨cls, "ab"⟩
        ∧ m.cache_key cls "a:b" = m.cache_key cls "ab") := by
  refine ⟨by decide, ?_, ?_⟩
  · intro m cls k1 k2 hk
    constructor
    · unfold Metric.rrd_path
      rw [hk]
    · unfold Metric.cache_key
      rw [hk]
  · intro m cls
    have h : strip_sep "a:b" = strip_sep "ab" := by decide
    constructor
    · unfold Metric.rrd_path
      rw [h]
    · unfold Metric.cache_key
      rw [h]

/-- Witness for C10 at a concrete metric: the two distinct keys "a:b" and
"ab" produce the same archive path and the same cache key. -/
theorem C10_path_collision_witness :
    (mkMetric "float").rrd_path ⟨"line", "a:b"⟩ =
      (mkMetric "float").rrd_path ⟨"line", "ab"⟩
    ∧ (mkMetric "float").cache_key "line" "a:b" =
      (mkMetric "float").cache_key "line" "ab" :=
  C10_path_collision.2.1 (mkMetric "float") "line" "a:b" "ab" (by decide)

/-- C5 counterexample: with the default capacity 3000, enqueueing 3001
items into an empty queue flushes once, but the flushed batch has 3001
items, not the 3000 the claim states. -/
theorem C5_counterexample :
    ((enqueue_all 3000 ⟨[], []⟩
        (List.replicate 3001 ((⟨"line", "1"⟩ : Entity), PyVal.pyint 1))).flushed.map
          List.length = [3001])
    ∧ (3001 : ℕ) ≠ 3000 := by
  constructor
  · rw [enqueue_all_boundary 3000 _
      (by simp only [List.length_replicate])]
    simp only [List.map_cons, List.map_nil, List.length_replicate]
  · decide

/-- C5 (amended): enqueueing capacity + 1 items into an initially empty
write queue results in exactly one synchronous flush, carrying all
capacity + 1 items, before the final enqueue returns; afterwards the
queue is empty (length 0, not 1), and no flush happens during the first
capacity enqueues. -/
theorem C5_queue_flush (qsize : ℕ) (items : List (Entity × PyVal))
    (h : items.length = qsize + 1) :
    enqueue_all qsize ⟨[], []⟩ items = ⟨[], [items]⟩
    ∧ (∀ k, k ≤ qsize →
        (enqueue_all qsize ⟨[], []⟩ (items.take k)).flushed = []) := by
  refine ⟨enqueue_all_boundary qsize items h, ?_⟩
  intro k hk
  rw [enqueue_all_no_flush qsize ⟨[], []⟩ (items.take k)
    (by simp [List.length_take]; omega)]

/-- Witness for C5 at capacity 2 with 3 concrete items. -/
theorem C5_queue_flush_witness :
    enqueue_all 2 ⟨[], []⟩
      [((⟨"line", "1"⟩ : Entity), PyVal.pyint 1), (⟨"line", "2"⟩, .pyint 2),
        (⟨"line", "3"⟩, .pyint 3)] =
      ⟨[], [[((⟨"line", "1"⟩ : Entity), PyVal.pyint 1), (⟨"line", "2"⟩, .pyint 2),
        (⟨"line", "3"⟩, .pyint 3)]]⟩
    ∧ (enqueue_all 2 ⟨[], []⟩
        ([((⟨"line", "1"⟩ : Entity), PyVal.pyint 1), (⟨"line", "2"⟩, .pyint 2),
          (⟨"line", "3"⟩, .pyint 3)].take 2)).flushed = [] := by
  constructor
  · exact (C5_queue_flush 2 _ (by decide)).1
  · exact (C5_queue_flush 2 _ (by decide)).2 2 (by decide)

/-- C6 counterexample: for the boolean kind with strict (that is,
force_metric_type) false and a missing raw value, decode returns None —
not False as the claim states. -/
theorem C6_counterexample :
    (mkMetric "bool").to_python none false = PyVal.pynone
    ∧ (mkMetric "bool").to_python none false ≠ PyVal.pybool false := by
  decide

/-- C6 (amended): the boolean decode maps the texts "1" and "True" to
True; when strict is false and the raw value is missing (None) it returns
None; every other input maps to False — in particular it never returns
None when strict is true — while the integer and float kinds return None
on parse failure when strict is false and the kind's zero when strict is
true. -/
theorem C6_bool_decode (v : Option String) (f : Bool) :
    ((mkMetric "bool").to_python v f = PyVal.pybool true ↔
      (v = some "1" ∨ v = some "True"))
    ∧ ((mkMetric "bool").to_python v f = PyVal.pynone ↔ (f = false ∧ v = none))
    ∧ ((mkMetric "float").to_python (some "abc") false = PyVal.pynone)
    ∧ ((mkMetric "int").to_python (some "abc") false = PyVal.pynone)
    ∧ ((mkMetric "float").to_python (some "abc") true = PyVal.pyfloat 0)
    ∧ ((mkMetric "int").to_python (some "abc") true = PyVal.pyint 0) := by
  refine ⟨?_, ?_, by decide, by decide, by decide, by decide⟩
  · unfold Metric.to_python
    by_cases h1 : v = some "1" ∨ v = some "True"
    · simp [mkMetric, h1]
    · by_cases h2 : f = false ∧ v = none <;> simp [mkMetric, h1, h2]
  · unfold Metric.to_python
    by_cases h1 : v = some "1" ∨ v = some "True"
    · have hne : v ≠ none := by rcases h1 with h | h <;> simp [h]
      simp [mkMetric, h1, hne]
    · by_cases h2 : f = false ∧ v = none <;> simp [mkMetric, h1, h2]

/-- C2: the multi-metric smoothing replaces an edge 0.0 by its neighbour
([0,5,5,0] becomes [5,5,5,5]) and never touches interior points
([5,0,5,5] is unchanged, and any interior values are preserved); the
single-metric `Metric.xport` smoothing, however, compares the whole row
tuple `output['data'][-1]` with the float 0.0 — never true — so it leaves
the series unchanged, contradicting both the claim and the code's own
comment. -/
theorem C2_boundary_smoothing :
    xport_smooth "traffic" xport_rows_c2 = .ok xport_rows_c2
    ∧ smooth_key [.pyfloat 0, .pyfloat 5, .pyfloat 5, .pyfloat 0] =
        some [.pyfloat 5, .pyfloat 5, .pyfloat 5, .pyfloat 5]
    ∧ smooth_key [.pyfloat 5, .pyfloat 0, .pyfloat 5, .pyfloat 5] =
        some [.pyfloat 5, .pyfloat 0, .pyfloat 5, .pyfloat 5]
    ∧ (∀ x y : ℚ, smooth_key [.pyfloat 5, .pyfloat x, .pyfloat y, .pyfloat 5] =
        some [.pyfloat 5, .pyfloat x, .pyfloat y, .pyfloat 5]) := by
  refine ⟨by rfl, by decide, by decide, ?_⟩
  intro x y
  simp +decide [smooth_key, py_get, py_set, py_index, pyEqVal, numVal]

theorem gp_fill_mem (m : Metric) (shared : SharedCache) (force : Bool) :
    ∀ (keys : List (String × String)) (lc : LocalCache) (pk : String),
    dict_mem (gp_fill m shared force lc keys) pk =
      (dict_mem lc pk || keys.any (fun kp => kp.2 = pk)) := by
  intro keys
  induction keys with
  | nil => intro lc pk; simp [gp_fill]
  | cons kp rest ih =>
    intro lc pk
    simp only [gp_fill]
    cases h : dict_get shared kp.1 with
    | some rv =>
      rw [ih]
      simp [dict_mem_set, List.any_cons, Bool.or_assoc, Bool.or_comm, Bool.or_left_comm]
    | none =>
      rw [ih]
      simp [dict_mem_set, List.any_cons, Bool.or_assoc, Bool.or_comm, Bool.or_left_comm]

theorem gp_keys_all_mem (m : Metric) (shared : SharedCache) (force : Bool)
    (lc : LocalCache) (key_class : String) (objs : List Entity) (o : Entity)
    (ho : o ∈ objs) :
    dict_mem (gp_fill m shared force lc (gp_keys m lc key_class objs)) o.pk = true := by
  rw [gp_fill_mem]
  by_cases h : dict_mem lc o.pk
  · simp [h]
  · have ha : (gp_keys m lc key_class objs).any (fun kp => kp.2 = o.pk) = true := by
      rw [List.any_eq_true]
      refine ⟨(m.cache_key key_class o.pk, o.pk), ?_, by simp⟩
      unfold gp_keys
      rw [List.mem_filterMap]
      exact ⟨o, ho, by simp [h]⟩
    simp [ha]

theorem gp_keys_nil_of_cached (m : Metric) (lc : LocalCache) (key_class : String)
    (objs : List Entity) (h : ∀ o ∈ objs, dict_mem lc o.pk = true) :
    gp_keys m lc key_class objs = [] := by
  unfold gp_keys
  rw [List.filterMap_eq_nil_iff]
  intro o ho
  simp [h o ho]

/-- C7: a `get_polling_many` batch issues at most one shared-cache round
trip, zero when every requested entity is already in the process-local
cache; every shared-cache miss is recorded as a cached None, so a second
call for the same batch on the same instance issues no further round
trip. -/
theorem C7_single_flight (m : Metric) (shared : SharedCache) (lc : LocalCache)
    (objs : List Entity) (force : Bool) :
    ((m.get_polling_many shared lc objs force).2.2).length ≤ 1
    ∧ ((∀ o ∈ objs, dict_mem lc o.pk = true) →
        (m.get_polling_many shared lc objs force).2.2 = [])
    ∧ (m.get_polling_many shared
        (m.get_polling_many shared lc objs force).1 objs force).2.2 = [] := by
  cases objs with
  | nil => simp [Metric.get_polling_many]
  | cons first rest =>
    refine ⟨?_, ?_, ?_⟩
    · simp only [Metric.get_polling_many]
      by_cases hk : (gp_keys m lc first.obj_class (first :: rest)).length > 0 <;>
        simp [hk]
    · intro hall
      have hnil := gp_keys_nil_of_cached m lc first.obj_class (first :: rest) hall
      simp [Metric.get_polling_many, hnil]
    · by_cases hk : (gp_keys m lc first.obj_class (first :: rest)).length > 0
      · have hall : ∀ o ∈ (first :: rest), dict_mem (gp_fill m shared force lc
            (gp_keys m lc first.obj_class (first :: rest))) o.pk = true :=
          fun o ho => gp_keys_all_mem m shared force lc first.obj_class _ o ho
        have hnil := gp_keys_nil_of_cached m _ first.obj_class (first :: rest) hall
        simp [Metric.get_polling_many, hk, hnil]
      · have hnil : gp_keys m lc first.obj_class (first :: rest) = [] := by
          cases hkk : gp_keys m lc first.obj_class (first :: rest) with
          | nil => rfl
          | cons a b => rw [hkk] at hk; simp at hk
        simp [Metric.get_polling_many, hnil]

/-- Witness for C7: an entity already in the local cache (recorded there
as a miss) causes zero shared-cache round trips. -/
theorem C7_single_flight_witness :
    ((mkMetric "float").get_polling_many [] [("1", PyVal.pynone)]
      [⟨"line", "1"⟩] true).2.2 = [] :=
  (C7_single_flight (mkMetric "float") [] [("1", PyVal.pynone)]
    [⟨"line", "1"⟩] true).2.1 (by decide)

theorem dict_set_set {β : Type} (d : List (String × β)) (k : String) (v w : β) :
    dict_set (dict_set d k v) k w = dict_set d k w := by
  induction d with
  | nil => simp [dict_set]
  | cons kv rest ih =>
    by_cases h : kv.1 = k
    · simp [dict_set, h]
    · simp [dict_set, h, ih]

theorem sp_rrd_step_other_failure (m : Metric) (faulty : String → Bool)
    (pre_path filename : String) (st : WriteState) (obj : Entity) (v : PyVal)
    (samples : List PyVal)
    (hen : m.rrd_enabled = true) (hv : value_is_empty v = false)
    (ha : dict_get st.rrd (pre_path ++ "/" ++ strip_sep obj.pk ++ "/" ++ filename) = some samples)
    (hf : faulty (pre_path ++ "/" ++ strip_sep obj.pk ++ "/" ++ filename) = true) :
    sp_rrd_step m faulty pre_path filename st obj v =
      .ok { st with logs := st.logs ++
        [rrd_log_msg m (strip_sep obj.pk) "rrd update failed"] } := by
  simp [sp_rrd_step, rrd_update, hen, hv, ha, hf]

theorem sp_rrd_step_append (m : Metric) (faulty : String → Bool)
    (pre_path filename : String) (st : WriteState) (obj : Entity) (v : PyVal)
    (samples : List PyVal)
    (hen : m.rrd_enabled = true) (hv : value_is_empty v = false)
    (ha : dict_get st.rrd (pre_path ++ "/" ++ strip_sep obj.pk ++ "/" ++ filename) = some samples)
    (hf : faulty (pre_path ++ "/" ++ strip_sep obj.pk ++ "/" ++ filename) = false) :
    sp_rrd_step m faulty pre_path filename st obj v =
      .ok ⟨dict_set st.rrd (pre_path ++ "/" ++ strip_sep obj.pk ++ "/" ++ filename)
            (samples ++ [v]), st.dirs, st.logs⟩ := by
  simp [sp_rrd_step, rrd_update, hen, hv, ha, hf]

theorem sp_rrd_step_create_retry (m : Metric) (faulty : String → Bool)
    (pre_path filename : String) (st : WriteState) (obj : Entity) (v : PyVal)
    (hen : m.rrd_enabled = true) (hv : value_is_empty v = false)
    (ha : dict_get st.rrd (pre_path ++ "/" ++ strip_sep obj.pk ++ "/" ++ filename) = none)
    (hf : faulty (pre_path ++ "/" ++ strip_sep obj.pk ++ "/" ++ filename) = false) :
    sp_rrd_step m faulty pre_path filename st obj v =
      .ok { rrd := dict_set st.rrd
              (pre_path ++ "/" ++ strip_sep obj.pk ++ "/" ++ filename) [v],
            dirs := if pre_path ++ "/" ++ strip_sep obj.pk ∈ st.dirs then st.dirs
              else st.dirs ++ [pre_path ++ "/" ++ strip_sep obj.pk],
            logs := st.logs } := by
  simp [sp_rrd_step, rrd_update, rrd_create, hen, hv, ha, hf,
    dict_get_set_self, dict_set_set]

theorem sp_loop_nil (m : Metric) (faulty : String → Bool)
    (pp fn cls : String) (cd : List (String × PyVal)) (st : WriteState) :
    sp_loop m faulty pp fn cls (cd, st) [] = .ok (cd, st) := rfl

theorem sp_loop_cons (m : Metric) (faulty : String → Bool)
    (pp fn cls : String) (cd : List (String × PyVal)) (st st' : WriteState)
    (obj : Entity) (v : PyVal) (rest : List (Entity × PyVal))
    (h : sp_rrd_step m faulty pp fn st obj v = .ok st') :
    sp_loop m faulty pp fn cls (cd, st) ((obj, v) :: rest) =
      sp_loop m faulty pp fn cls (dict_set cd (m.cache_key cls obj.pk) v, st') rest := by
  simp only [sp_loop]
  rw [h]

theorem sp_loop_cons_error (m : Metric) (faulty : String → Bool)
    (pp fn cls : String) (cd : List (String × PyVal)) (st : WriteState)
    (obj : Entity) (v : PyVal) (rest : List (Entity × PyVal)) (er : RrdErr)
    (h : sp_rrd_step m faulty pp fn st obj v = .error er) :
    sp_loop m faulty pp fn cls (cd, st) ((obj, v) :: rest) = .error er := by
  simp only [sp_loop]
  rw [h]

/-- C4: during `set_polling_many` with archiving enabled and a non-empty
value, an archive failure that is not "No such file" is logged and only
that entity's archive write is skipped — the rest of the batch, including
that entity's shared-cache write, is still performed; a "No such file"
failure triggers directory creation, archive creation, and a retry of
that single write, leaving exactly one archive holding exactly one
sample. -/
theorem C4_store_error_containment :
    (∀ (m : Metric) (faulty : String → Bool) (st : WriteState) (c : SharedCache)
        (e1 e2 : Entity) (v1 v2 : PyVal) (s1 s2 : List PyVal),
      m.rrd_enabled = true →
      value_is_empty v1 = false → value_is_empty v2 = false →
      dict_get st.rrd (sp_filepath m e1.obj_class e1) = some s1 →
      faulty (sp_filepath m e1.obj_class e1) = true →
      dict_get st.rrd (sp_filepath m e1.obj_class e2) = some s2 →
      faulty (sp_filepath m e1.obj_class e2) = false →
      sp_filepath m e1.obj_class e1 ≠ sp_filepath m e1.obj_class e2 →
      m.cache_key e1.obj_class e1.pk ≠ m.cache_key e1.obj_class e2.pk →
      (m.set_polling_many faulty st c [(e1, v1), (e2, v2)] =
        .ok (⟨dict_set st.rrd (sp_filepath m e1.obj_class e2) (s2 ++ [v2]),
              st.dirs,
              st.logs ++ [rrd_log_msg m (strip_sep e1.pk) "rrd update failed"]⟩,
             cache_set_many c [(m.cache_key e1.obj_class e1.pk, v1),
               (m.cache_key e1.obj_class e2.pk, v2)] m.timeout_of,
             [(m.cache_key e1.obj_class e1.pk, v1),
              (m.cache_key e1.obj_class e2.pk, v2)])
      ∧ dict_get (dict_set st.rrd (sp_filepath m e1.obj_class e2) (s2 ++ [v2]))
          (sp_filepath m e1.obj_class e1) = some s1
      ∧ dict_get (cache_set_many c [(m.cache_key e1.obj_class e1.pk, v1),
            (m.cache_key e1.obj_class e2.pk, v2)] m.timeout_of)
          (m.cache_key e1.obj_class e1.pk) = some (pyStr v1, m.timeout_of)))
    ∧ (∀ (m : Metric) (faulty : String → Bool) (st : WriteState) (c : SharedCache)
        (e : Entity) (v : PyVal),
      m.rrd_enabled = true → value_is_empty v = false →
      dict_get st.rrd (sp_filepath m e.obj_class e) = none →
      faulty (sp_filepath m e.obj_class e) = false →
      (m.set_polling_many faulty st c [(e, v)] =
        .ok (⟨dict_set st.rrd (sp_filepath m e.obj_class e) [v],
              (if sp_dirpath m e.obj_class e ∈ st.dirs then st.dirs
               else st.dirs ++ [sp_dirpath m e.obj_class e]),
              st.logs⟩,
             cache_set_many c [(m.cache_key e.obj_class e.pk, v)] m.timeout_of,
             [(m.cache_key e.obj_class e.pk, v)])
      ∧ dict_get (dict_set st.rrd (sp_filepath m e.obj_class e) [v])
          (sp_filepath m e.obj_class e) = some [v]
      ∧ sp_dirpath m e.obj_class e ∈
          (if sp_dirpath m e.obj_class e ∈ st.dirs then st.dirs
           else st.dirs ++ [sp_dirpath m e.obj_class e])
      ∧ dict_get (cache_set_many c [(m.cache_key e.obj_class e.pk, v)] m.timeout_of)
          (m.cache_key e.obj_class e.pk) = some (pyStr v, m.timeout_of))) := by
  constructor
  · intro m faulty st c e1 e2 v1 v2 s1 s2 hen hv1 hv2 ha1 hf1 ha2 hf2 hfp hkk
    simp only [sp_filepath] at ha1 hf1 ha2 hf2 hfp ⊢
    have h1 := sp_rrd_step_other_failure m faulty (m.rrd_root ++ "/" ++ e1.obj_class)
      (toString m.pk ++ ".rrd") st e1 v1 s1 hen hv1 ha1 hf1
    have h2 := sp_rrd_step_append m faulty (m.rrd_root ++ "/" ++ e1.obj_class)
      (toString m.pk ++ ".rrd")
      { st with logs := st.logs ++ [rrd_log_msg m (strip_sep e1.pk) "rrd update failed"] }
      e2 v2 s2 hen hv2 (by simpa using ha2) hf2
    refine ⟨?_, ?_, ?_⟩
    · simp only [Metric.set_polling_many]
      rw [sp_loop_cons m faulty (m.rrd_root ++ "/" ++ e1.obj_class)
        (toString m.pk ++ ".rrd") e1.obj_class [] st _ e1 v1 [(e2, v2)] h1,
        sp_loop_cons m faulty (m.rrd_root ++ "/" ++ e1.obj_class)
        (toString m.pk ++ ".rrd") e1.obj_class _ _ _ e2 v2 [] h2,
        sp_loop_nil]
      simp [dict_set, hkk]
    · rw [dict_get_set_ne _ _ _ _ (Ne.symm hfp)]
      exact ha1
    · unfold cache_set_many
      simp only [List.foldl_cons, List.foldl_nil]
      rw [dict_get_set_ne _ _ _ _ (Ne.symm hkk), dict_get_set_self]
  · intro m faulty st c e v hen hv ha hf
    simp only [sp_filepath, sp_dirpath] at ha hf ⊢
    have h1 := sp_rrd_step_create_retry m faulty (m.rrd_root ++ "/" ++ e.obj_class)
      (toString m.pk ++ ".rrd") st e v hen hv ha hf
    refine ⟨?_, ?_, ?_, ?_⟩
    · simp only [Metric.set_polling_many]
      rw [sp_loop_cons m faulty (m.rrd_root ++ "/" ++ e.obj_class)
        (toString m.pk ++ ".rrd") e.obj_class [] st _ e v [] h1,
        sp_loop_nil]
      simp [dict_set]
    · exact dict_get_set_self _ _ _
    · by_cases hd : m.rrd_root ++ "/" ++ e.obj_class ++ "/" ++ strip_sep e.pk ∈ st.dirs <;>
        simp [hd]
    · unfold cache_set_many
      simp only [List.foldl_cons, List.foldl_nil]
      exact dict_get_set_self _ _ _

/-- Witness for C4 at concrete inputs: entity "1" has a faulty existing
archive (its write is logged and skipped, its cache write kept), entity
"2" succeeds; separately, entity "3" with no archive gets a created
archive holding exactly the one written sample. -/
theorem C4_store_error_containment_witness :
    ((mkMetric "float").set_polling_many
        (fun p => p = sp_filepath (mkMetric "float") "line" ⟨"line", "1"⟩)
        ⟨[(sp_filepath (mkMetric "float") "line" ⟨"line", "1"⟩, []),
          (sp_filepath (mkMetric "float") "line" ⟨"line", "2"⟩, [])], [], []⟩ []
        [(⟨"line", "1"⟩, .pyint 1), (⟨"line", "2"⟩, .pyint 2)] =
      .ok (⟨dict_set [(sp_filepath (mkMetric "float") "line" ⟨"line", "1"⟩, []),
              (sp_filepath (mkMetric "float") "line" ⟨"line", "2"⟩, [])]
              (sp_filepath (mkMetric "float") "line" ⟨"line", "2"⟩) ([] ++ [.pyint 2]),
            [],
            [] ++ [rrd_log_msg (mkMetric "float") (strip_sep "1") "rrd update failed"]⟩,
           cache_set_many [] [((mkMetric "float").cache_key "line" "1", .pyint 1),
             ((mkMetric "float").cache_key "line" "2", .pyint 2)]
             (mkMetric "float").timeout_of,
           [((mkMetric "float").cache_key "line" "1", .pyint 1),
            ((mkMetric "float").cache_key "line" "2", .pyint 2)]))
    ∧ (mkMetric "float").set_polling_many (fun _ => false) ⟨[], [], []⟩ []
        [(⟨"line", "3"⟩, .pyint 3)] =
      .ok (⟨dict_set [] (sp_filepath (mkMetric "float") "line" ⟨"line", "3"⟩) [.pyint 3],
            (if sp_dirpath (mkMetric "float") "line" ⟨"line", "3"⟩ ∈ ([] : List String)
             then ([] : List String)
             else [] ++ [sp_dirpath (mkMetric "float") "line" ⟨"line", "3"⟩]),
            []⟩,
           cache_set_many [] [((mkMetric "float").cache_key "line" "3", .pyint 3)]
             (mkMetric "float").timeout_of,
           [((mkMetric "float").cache_key "line" "3", .pyint 3)]) := by
  refine ⟨?_, ?_⟩
  · exact (C4_store_error_containment.1 (mkMetric "float") _ _ [] ⟨"line", "1"⟩
      ⟨"line", "2"⟩ (.pyint 1) (.pyint 2) [] [] (by decide) (by decide) (by decide)
      (by decide) (by decide) (by decide) (by decide) (by decide) (by decide)).1
  · exact (C4_store_error_containment.2 (mkMetric "float") (fun _ => false)
      ⟨[], [], []⟩ [] ⟨"line", "3"⟩ (.pyint 3) (by decide) (by decide) (by decide)
      (by decide)).1

theorem set_polling_cache (m : Metric) (faulty : String → Bool) (st : WriteState)
    (c : SharedCache) (e : Entity) (v : PyVal) (st' : WriteState) (c' : SharedCache)
    (cd : List (String × PyVal))
    (h : m.set_polling faulty st c e v = .ok (st', c', cd)) :
    c' = dict_set c (m.cache_key e.obj_class e.pk) (pyStr v, m.timeout_of)
    ∧ cd = [(m.cache_key e.obj_class e.pk, v)] := by
  simp only [Metric.set_polling, Metric.set_polling_many] at h
  cases hs : sp_rrd_step m faulty (m.rrd_root ++ "/" ++ e.obj_class)
      (toString m.pk ++ ".rrd") st e v with
  | ok st1 =>
    rw [sp_loop_cons m faulty (m.rrd_root ++ "/" ++ e.obj_class)
      (toString m.pk ++ ".rrd") e.obj_class [] st st1 e v [] hs, sp_loop_nil] at h
    simp only [Except.ok.injEq, Prod.mk.injEq] at h
    obtain ⟨-, hc, hcd⟩ := h
    refine ⟨?_, ?_⟩
    · rw [← hc]
      simp [cache_set_many, dict_set]
    · rw [← hcd]
      simp [dict_set]
  | error er =>
    rw [sp_loop_cons_error m faulty (m.rrd_root ++ "/" ++ e.obj_class)
      (toString m.pk ++ ".rrd") e.obj_class [] st e v [] er hs] at h
    cases h

/-- C8: writing value v for (metric, entity) through `set_polling` and
then reading through `get_polling` returns the decode of the stored raw
value, that is, v coerced to the metric's declared kind; for each kind a
well-typed value round-trips to itself. -/
theorem C8_round_trip :
    (∀ (m : Metric) (faulty : String → Bool) (st : WriteState) (c : SharedCache)
        (lc : LocalCache) (e : Entity) (v : PyVal) (st' : WriteState)
        (c' : SharedCache) (cd : List (String × PyVal)),
      m.set_polling faulty st c e v = .ok (st', c', cd) →
      (m.get_polling c' lc e true).2.1 = m.to_python (some (pyStr v)) true)
    ∧ (∀ b : Bool,
        (mkMetric "bool").to_python (some (pyStr (.pybool b))) true = .pybool b)
    ∧ (mkMetric "int").to_python (some (pyStr (.pyint 7))) true = .pyint 7
    ∧ (mkMetric "float").to_python (some (pyStr (.pyfloat (7 / 2)))) true =
        .pyfloat (7 / 2)
    ∧ (mkMetric "str").to_python (some (pyStr (.pystr "abc"))) true = .pystr "abc" := by
  refine ⟨?_, by intro b; cases b <;> decide, by decide, ?_, by decide⟩
  · intro m faulty st c lc e v st' c' cd h
    obtain ⟨hc, -⟩ := set_polling_cache m faulty st c e v st' c' cd h
    subst hc
    have hmem : dict_mem (dict_del lc e.pk) e.pk = false := dict_mem_del_self lc e.pk
    unfold Metric.get_polling Metric.get_polling_many
    simp only [gp_keys, List.filterMap_cons, List.filterMap_nil, hmem,
      Bool.false_eq_true, if_false]
    simp only [gp_fill, dict_get_set_self, List.length_cons, List.length_nil,
      gt_iff_lt, Nat.zero_lt_succ, if_true, List.map_cons, List.map_nil]
    simp [dict_get_set_self]
  · have hn : ((7 : ℚ) / 2).num = 7 := by norm_num
    have hd : ((7 : ℚ) / 2).den = 2 := by norm_num
    have hlt : ¬((7 : ℚ) / 2 < 0) := by norm_num
    have hs : pyStr (.pyfloat (7 / 2)) = "3.5" := by
      simp +decide [pyStr, floatStr, hn, hd, hlt]
    rw [hs]
    simp +decide [Metric.to_python, mkMetric, parseFloatStr, parseUnsignedFloat, digitsVal]
    norm_num

/-- Witness for C8 at a concrete write: storing "abc" for a string metric
(archiving off) and reading it back yields the decode of the stored raw
text. -/
theorem C8_round_trip_witness :
    (({ mkMetric "str" with rrd_enabled := false }).get_polling
      [("timegraph/line/9/7", ("abc", 604800))] [] ⟨"line", "9"⟩ true).2.1 =
      ({ mkMetric "str" with rrd_enabled := false }).to_python
        (some (pyStr (.pystr "abc"))) true :=
  C8_round_trip.1 { mkMetric "str" with rrd_enabled := false } (fun _ => false)
    ⟨[], [], []⟩ [] [] ⟨"line", "9"⟩ (.pystr "abc") ⟨[], [], []⟩
    [("timegraph/line/9/7", ("abc", 604800))]
    [("timegraph/line/9/7", .pystr "abc")] (by rfl)

/-- C9 counterexample: enqueue-flushing the same entity twice sends the
series store both samples in order, but the shared-cache batch dict holds
a single binding carrying only the last value — the pair (entity, 1) is
never persisted to the shared cache. -/
theorem C9_counterexample :
    (mkMetric "int").set_polling_many (fun _ => false)
        ⟨[(sp_filepath (mkMetric "int") "line" ⟨"line", "1"⟩, [])], [], []⟩ []
        [(⟨"line", "1"⟩, .pyint 1), (⟨"line", "1"⟩, .pyint 2)] =
      .ok (⟨[(sp_filepath (mkMetric "int") "line" ⟨"line", "1"⟩,
              [.pyint 1, .pyint 2])], [], []⟩,
           [((mkMetric "int").cache_key "line" "1", ("2", 604800))],
           [((mkMetric "int").cache_key "line" "1", .pyint 2)])
    ∧ ¬ ∃ t, ((mkMetric "int").cache_key "line" "1", ("1", t)) ∈
        ([((mkMetric "int").cache_key "line" "1", ("2", 604800))] : SharedCache) := by
  constructor
  · rfl
  · rintro ⟨t, ht⟩
    simp at ht

/-- C9 (amended): the queue itself performs no deduplication — repeated
entities stay distinct ordered elements — and on flush the series store
receives each pair's sample in enqueue order; the shared cache, however,
receives one write per entity, carrying the last enqueued value, because
the batch dict collapses duplicate keys. -/
theorem C9_no_dedup :
    (∀ (qsize : ℕ) (items : List (Entity × PyVal)), items.length ≤ qsize →
      (enqueue_all qsize ⟨[], []⟩ items).queue = items
      ∧ (enqueue_all qsize ⟨[], []⟩ items).flushed = [])
    ∧ (∀ (m : Metric) (faulty : String → Bool) (st : WriteState) (c : SharedCache)
        (e : Entity) (v1 v2 : PyVal) (s : List PyVal),
      m.rrd_enabled = true →
      value_is_empty v1 = false → value_is_empty v2 = false →
      dict_get st.rrd (sp_filepath m e.obj_class e) = some s →
      faulty (sp_filepath m e.obj_class e) = false →
      m.set_polling_many faulty st c [(e, v1), (e, v2)] =
        .ok (⟨dict_set st.rrd (sp_filepath m e.obj_class e) (s ++ [v1, v2]),
              st.dirs, st.logs⟩,
             cache_set_many c [(m.cache_key e.obj_class e.pk, v2)] m.timeout_of,
             [(m.cache_key e.obj_class e.pk, v2)])) := by
  constructor
  · intro qsize items hlen
    rw [enqueue_all_no_flush qsize ⟨[], []⟩ items (by simpa using hlen)]
    simp
  · intro m faulty st c e v1 v2 s hen hv1 hv2 ha hf
    simp only [sp_filepath] at ha hf ⊢
    have h1 := sp_rrd_step_append m faulty (m.rrd_root ++ "/" ++ e.obj_class)
      (toString m.pk ++ ".rrd") st e v1 s hen hv1 ha hf
    have h2 := sp_rrd_step_append m faulty (m.rrd_root ++ "/" ++ e.obj_class)
      (toString m.pk ++ ".rrd")
      ⟨dict_set st.rrd (m.rrd_root ++ "/" ++ e.obj_class ++ "/" ++ strip_sep e.pk ++
          "/" ++ (toString m.pk ++ ".rrd")) (s ++ [v1]), st.dirs, st.logs⟩
      e v2 (s ++ [v1]) hen hv2 (by simp [dict_get_set_self]) hf
    simp only [Metric.set_polling_many]
    rw [sp_loop_cons m faulty (m.rrd_root ++ "/" ++ e.obj_class)
      (toString m.pk ++ ".rrd") e.obj_class [] st _ e v1 [(e, v2)] h1,
      sp_loop_cons m faulty (m.rrd_root ++ "/" ++ e.obj_class)
      (toString m.pk ++ ".rrd") e.obj_class _ _ _ e v2 [] h2,
      sp_loop_nil]
    simp [dict_set, dict_set_set, dict_get_set_self]

end Timegraph
